import Mathlib

/-!
Shallow embedding of the VectorCode query pipeline
(src/vectorcode/subcommands/query/__init__.py): `get_query_result_files`,
`build_query_results` and `query`, together with the surrounding data model.
External collaborators (filesystem, chroma collection, embedding function,
reranker, path helpers from `cli_utils`) are modelled as fields of an
environment record, since their implementations live outside this file.
-/

namespace VectorCode

/-- Output-mode members. Modelled from the spec: `QueryInclude` lives in
`vectorcode.cli_utils` (not part of the sources here); the spec states the
OutputMode is a set drawn from the keys path, document and chunk. -/
inductive QueryInclude
  | path
  | document
  | chunk
deriving DecidableEq

/-- String value of a `QueryInclude` member, as produced by `str(key)` /
`key.value` in the source. Modelled from the spec: the enum members carry
their lowercase names as values. -/
def QueryInclude.toKey : QueryInclude → String
  | .path => "path"
  | .document => "document"
  | .chunk => "chunk"

/-- The fields of `Config` (from `vectorcode.cli_utils`) that the query
pipeline reads or writes. The Python attribute `include` is spelled
`includes` here because `include` is a reserved word. -/
structure Config where
  query : List String
  n_result : Int
  query_multiplier : Int
  includes : List QueryInclude
  query_exclude : List String
  use_absolute_path : Bool
  project_root : String
  pipe : Bool

/-- Python values appearing in filter dictionaries and result records. -/
inductive Val
  | str (s : String)
  | int (n : Int)
  | list (vs : List Val)
  | dict (entries : List (String × Val))

/-- A Python `dict[str, ...]` as an insertion-ordered association list. -/
abbrev PyDict := List (String × Val)

/-- `d[k]` lookup returning the first binding of `k`. -/
def dictGet : PyDict → String → Option Val
  | [], _ => none
  | p :: rest, key => if p.1 = key then some p.2 else dictGet rest key

/-- `d[k] = v` assignment: replaces an existing binding in place, otherwise
appends a new binding at the end, as Python dictionaries do. -/
def dictSet (d : PyDict) (key : String) (v : Val) : PyDict :=
  if (dictGet d key).isSome then
    d.map (fun p => if p.1 = key then (key, v) else p)
  else d ++ [(key, v)]

/-- The key list of a record, in insertion order. -/
def recKeys (d : PyDict) : List String := d.map Prod.fst

/-- One metadata entry returned by `collection.get`, with the three keys the
reconciler reads (`start`, `end`, `path`), each possibly absent. -/
structure ChunkMeta where
  mstart : Option Int
  mend : Option Int
  mpath : Option String

/-- Exceptions that can escape the embedded code paths. -/
inductive PyErr
  | rerankerError
  | keyError
  | assertionError
  | indexErr
  | fileNotFound
deriving DecidableEq

/-- Log lines the reconciler can emit while looping over identifiers. -/
inductive LogMsg
  | noChunkMetadata
  | staleFile (identifier : String)
deriving DecidableEq

/-- The external world of one query invocation: filesystem, path helpers
from `cli_utils`, the chroma collection, chunker, reranker and client state.
All are outside the sources verified here, so they are abstract data. -/
structure Env where
  isFile : String → Bool
  fileLines : String → List String
  expand_globs : List String → List String
  expand_path : String → String
  abspath : String → String
  relpath : String → String → String
  cleanup_path : String → String
  chunkString : String → List String
  count : Nat
  startTaggedIds : List String
  chunkMeta : String → Option (List ChunkMeta)
  chunkDocs : String → Option (List String)
  queryRaisesIndexError : Bool
  rerankerFails : Bool
  rerankedIds : List String
  collectionOk : Bool

/-- Normalisation of one slice bound, as Python performs it on `l[a:b]`. -/
def pySliceIdx (len : Nat) (i : Int) : Nat :=
  if i < 0 then ((len : Int) + i).toNat else min i.toNat len

/-- Python list slicing `l[a:b]` with integer bounds. -/
def pySlice {α : Type _} (l : List α) (a b : Int) : List α :=
  (l.take (pySliceIdx l.length b)).drop (pySliceIdx l.length a)

/-- `"".join(fin.readlines())`: a full file read, since `read()` returns the
concatenation of the lines with their terminators. -/
def fileContent (env : Env) (p : String) : String :=
  String.join (env.fileLines p)

/-- Lines 36-40: the query strings are chunked one by one and flattened. -/
def queryChunks (env : Env) (configs : Config) : List String :=
  configs.query.flatMap env.chunkString

/-- Lines 42-46: glob expansion of `configs.query_exclude`, keeping entries
that exist as files and absolutising them via `expand_path(i, True)`. -/
def expandedExclude (env : Env) (qe : List String) : List String :=
  ((env.expand_globs qe).filter env.isFile).map env.expand_path

/-- What `get_query_result_files` did with the collection: an early return
on an empty collection, or a `collection.query` request carrying the chosen
`n_results` and `where` clause (`indexError` records a caught exception). -/
inductive QueryOutcome
  | emptyCollection
  | request (num_query : Int) (whereClause : Option Val) (indexError : Bool)

/-- The embedding function is called exactly when a request is issued
(line 71 evaluates it while building the `collection.query` arguments). -/
def QueryOutcome.embeddingInvoked : QueryOutcome → Bool
  | .emptyCollection => false
  | .request _ _ _ => true

/-- The candidate count of the issued request, when one was issued. -/
def QueryOutcome.numRequested : QueryOutcome → Option Int
  | .emptyCollection => none
  | .request n _ _ => some n

/-- Result of `get_query_result_files`: the mutated configs, the request
trace and the identifier list (or the reranker failure) it returned. -/
structure GQRF where
  configs : Config
  outcome : QueryOutcome
  ids : Except PyErr (List String)

/-- Lines 33-85, `get_query_result_files`. The exclusion list is expanded
into `configs.query_exclude`; an empty collection short-circuits to `[]`;
otherwise the filter dictionary and the candidate count are computed exactly
as in the source (note line 59 writes the second conjunct of the `$and` as
the bare dictionary containing only the `$gte` key) and the request is
issued, with `where` equal to the filter when it is non-empty (`or None`). -/
def get_query_result_files (env : Env) (configs : Config) : GQRF :=
  let qe := expandedExclude env configs.query_exclude
  let configs := { configs with query_exclude := qe }
  if env.count = 0 then
    ⟨configs, .emptyCollection, .ok []⟩
  else
    let filter : PyDict :=
      if qe.length ≠ 0 then
        [("path", Val.dict [("$nin", Val.list (qe.map Val.str))])]
      else []
    let nf : Int × PyDict :=
      if QueryInclude.chunk ∈ configs.includes then
        (configs.n_result,
          if !filter.isEmpty then
            [("$and", Val.list [Val.dict filter, Val.dict [("$gte", Val.int 0)]])]
          else
            [("start", Val.dict [("$gte", Val.int 0)])])
      else
        ((if configs.query_multiplier > 0 then
            min (configs.n_result * configs.query_multiplier) (env.count : Int)
          else (env.count : Int)), filter)
    let whereClause : Option Val :=
      if !nf.2.isEmpty then some (Val.dict nf.2) else none
    if env.queryRaisesIndexError then
      ⟨configs, .request nf.1 whereClause true, .ok []⟩
    else if env.rerankerFails then
      ⟨configs, .request nf.1 whereClause false, .error .rerankerError⟩
    else
      ⟨configs, .request nf.1 whereClause false, .ok env.rerankedIds⟩

/-- The dict comprehension on line 104:
`{str(key): full_result[str(key)] for key in configs.include}`, evaluated
left to right; a missing key raises `KeyError` (`none`). -/
def projectIncludes (full : PyDict) (acc : PyDict) : List QueryInclude → Option PyDict
  | [] => some acc
  | k :: ks =>
    match dictGet full k.toKey with
    | some v => projectIncludes full (dictSet acc k.toKey v) ks
    | none => none

/-- Lines 93-148: the body of the reconciliation loop for one identifier.
Returns the record appended to `structured_result` (if any) and the log
lines emitted. The `structured_result.append(full_result)` on line 139 is
nested inside the branch requiring both `start` and `end` to be present, so
a chunk whose metadata lacks either offset produces no record. -/
def processIdentifier (env : Env) (configs : Config) (identifier : String) :
    Except PyErr (Option PyDict × List LogMsg) :=
  if env.isFile identifier then
    let output_path :=
      if configs.use_absolute_path then env.abspath identifier
      else env.relpath identifier configs.project_root
    let full_result : PyDict :=
      [("path", Val.str output_path), ("document", Val.str (fileContent env identifier))]
    match projectIncludes full_result [] configs.includes with
    | some r => .ok (some r, [])
    | none => .error .keyError
  else if QueryInclude.chunk ∈ configs.includes then
    match env.chunkMeta identifier with
    | none => .ok (none, [.noChunkMetadata])
    | some [] => .ok (none, [.noChunkMetadata])
    | some (m :: _) =>
      match env.chunkDocs identifier with
      | none => .error .assertionError
      | some [] => .error .indexErr
      | some (d0 :: _) =>
        let full_result : PyDict :=
          [("chunk", Val.str d0), ("chunk_id", Val.str identifier)]
        match m.mstart, m.mend with
        | some s, some e =>
          let path := m.mpath.getD "None"
          if env.isFile path then
            let lines := env.fileLines path
            let r1 := dictSet full_result "chunk"
              (Val.str (String.join (pySlice lines s (e + 1))))
            let r2 := dictSet r1 "start_line" (Val.int s)
            let r3 := dictSet r2 "end_line" (Val.int e)
            if QueryInclude.path ∈ configs.includes then
              match m.mpath with
              | none => .error .keyError
              | some p =>
                let r4 := dictSet r3 "path"
                  (Val.str (if configs.use_absolute_path then p
                            else env.relpath p configs.project_root))
                .ok (some r4, [])
            else .ok (some r3, [])
          else .error .fileNotFound
        | _, _ => .ok (none, [])
  else .ok (none, [.staleFile identifier])

/-- The `for identifier in ...` loop of `build_query_results`, collecting
appended records in order and concatenating log lines. -/
def buildLoop (env : Env) (configs : Config) : List String → Except PyErr (List PyDict × List LogMsg)
  | [] => .ok ([], [])
  | identifier :: rest =>
    match processIdentifier env configs identifier with
    | .error e => .error e
    | .ok (r?, ls) =>
      match buildLoop env configs rest with
      | .error e => .error e
      | .ok (rs, ls2) =>
        .ok ((match r? with | some r => r :: rs | none => rs), ls ++ ls2)

/-- The string Python passes to `cleanup_path` for a `path` value. -/
def Val.asStr : Val → String
  | .str s => s
  | .int n => toString n
  | _ => ""

/-- Lines 149-151: the post-processing loop rewriting every record that has
a `path` key with `cleanup_path` applied to it. -/
def cleanupResults (env : Env) (rs : List PyDict) : List PyDict :=
  rs.map (fun r =>
    match dictGet r "path" with
    | some v => dictSet r "path" (Val.str (env.cleanup_path (Val.asStr v)))
    | none => r)

/-- Result of `build_query_results`: the configs mutated by
`get_query_result_files`, the retrieval trace, the returned record list (or
the exception that escaped) and the log lines of the loop. -/
structure BuildResult where
  configs : Config
  outcome : QueryOutcome
  result : Except PyErr (List PyDict)
  logs : List LogMsg

/-- Lines 88-152, `build_query_results`. -/
def build_query_results (env : Env) (configs : Config) : BuildResult :=
  let g := get_query_result_files env configs
  match g.ids with
  | .error e => ⟨g.configs, g.outcome, .error e, []⟩
  | .ok ids =>
    match buildLoop env g.configs ids with
    | .error e => ⟨g.configs, g.outcome, .error e, []⟩
    | .ok (rs, ls) => ⟨g.configs, g.outcome, .ok (cleanupResults env rs), ls⟩

/-- Result of the capability probe on lines 188-195. -/
structure FallbackResult where
  configs : Config
  warned : Bool
  probes : Nat

/-- Lines 188-195: when chunk output is requested, one `collection.get`
probe for records with `start >= 0`; if it returns no ids, the requested
include list is rewritten to `[path, document]` and a warning is logged. -/
def capabilityFallback (env : Env) (configs : Config) : FallbackResult :=
  if QueryInclude.chunk ∈ configs.includes then
    if env.startTaggedIds.length = 0 then
      ⟨{ configs with includes := [QueryInclude.path, QueryInclude.document] }, true, 1⟩
    else ⟨configs, false, 1⟩
  else ⟨configs, false, 0⟩

/-- Observable trace of one `query` invocation. `exit` is the returned exit
code, or the exception that escaped uncaught. -/
structure QueryTrace where
  exit : Except PyErr Nat
  clientAcquired : Bool
  probes : Nat
  fallbackWarned : Bool
  outcome : Option QueryOutcome
  configsFinal : Config
  results : List PyDict

/-- Lines 155-212, `query`: mode validation, client acquisition and
collection resolution (collapsed into `env.collectionOk`), the capability
fallback, then `build_query_results`; only `RerankerError` is caught. -/
def query (env : Env) (configs : Config) : QueryTrace :=
  if QueryInclude.chunk ∈ configs.includes ∧ QueryInclude.document ∈ configs.includes then
    ⟨.ok 1, false, 0, false, none, configs, []⟩
  else if !env.collectionOk then
    ⟨.ok 1, true, 0, false, none, configs, []⟩
  else
    let fb := capabilityFallback env configs
    let b := build_query_results env fb.configs
    match b.result with
    | .error .rerankerError => ⟨.ok 1, true, fb.probes, fb.warned, some b.outcome, b.configs, []⟩
    | .error e => ⟨.error e, true, fb.probes, fb.warned, some b.outcome, b.configs, []⟩
    | .ok rs => ⟨.ok 0, true, fb.probes, fb.warned, some b.outcome, b.configs, rs⟩

/-! Concrete environments and configurations used to evaluate the pipeline
on explicit inputs. `baseEnv` is a neutral world; each scenario overrides
the fields it needs. -/

/-- A neutral external world: no files, one indexed record, a healthy
client, identity path helpers, a reranker returning no identifiers. -/
def baseEnv : Env where
  isFile := fun _ => false
  fileLines := fun _ => []
  expand_globs := fun l => l
  expand_path := fun s => s
  abspath := fun s => s
  relpath := fun p _ => p
  cleanup_path := fun s => s
  chunkString := fun s => [s]
  count := 1
  startTaggedIds := ["t0"]
  chunkMeta := fun _ => none
  chunkDocs := fun _ => none
  queryRaisesIndexError := false
  rerankerFails := false
  rerankedIds := []
  collectionOk := true

/-- A neutral configuration requesting paths and documents. -/
def baseCfg : Config where
  query := ["needle"]
  n_result := 3
  query_multiplier := -1
  includes := [QueryInclude.path, QueryInclude.document]
  query_exclude := []
  use_absolute_path := true
  project_root := "/repo"
  pipe := true

/-- World for the exclusion-filter scenario: `/repo/a.py` exists. -/
def envC1 : Env :=
  { baseEnv with
    isFile := fun s => s == "/repo/a.py"
    count := 5 }

/-- Chunk-mode request excluding the existing file `/repo/a.py`. -/
def cfgC1 : Config :=
  { baseCfg with
    includes := [QueryInclude.chunk]
    query_exclude := ["/repo/a.py"] }

/-- Chunk-mode request with no exclusions. -/
def cfgC1b : Config :=
  { baseCfg with includes := [QueryInclude.chunk] }

/-- World for the incomplete-metadata scenario: the reranker returns the
chunk identifier `cid2`, whose stored metadata is non-empty but carries
neither `start` nor `end`; the indexed chunk text is present. -/
def envC2 : Env :=
  { baseEnv with
    chunkMeta := fun s => if s == "cid2" then some [⟨none, none, some "/repo/f2.py"⟩] else none
    chunkDocs := fun s => if s == "cid2" then some ["indexed text"] else none
    rerankedIds := ["cid2"] }

/-- Chunk-only output request. -/
def cfgC2 : Config := { baseCfg with includes := [QueryInclude.chunk] }

/-- World for the chunk-reconciliation scenario: the reranker returns the
chunk identifier `cid3` with full metadata pointing into `/repo/f3.py`,
whose current on-disk content is the single line `hello`. -/
def envC3 : Env :=
  { baseEnv with
    isFile := fun s => s == "/repo/f3.py"
    fileLines := fun s => if s == "/repo/f3.py" then ["hello\n"] else []
    chunkMeta := fun s => if s == "cid3" then some [⟨some 0, some 0, some "/repo/f3.py"⟩] else none
    chunkDocs := fun s => if s == "cid3" then some ["stale text"] else none
    rerankedIds := ["cid3"] }

/-- Chunk-and-path output request. -/
def cfgC3 : Config := { baseCfg with includes := [QueryInclude.path, QueryInclude.chunk] }

/-- A ten-record index. -/
def envC5 : Env := { baseEnv with count := 10 }

/-- Document/path mode with two requested results and multiplier three. -/
def cfgC5 : Config := { baseCfg with n_result := 2, query_multiplier := 3 }

/-- An empty collection. -/
def envC6 : Env := { baseEnv with count := 0 }

/-- The invalid include combination. -/
def cfgC7 : Config :=
  { baseCfg with includes := [QueryInclude.chunk, QueryInclude.document] }

/-- World for the capability-fallback scenario: chunk mode requested but
the probe for `start >= 0` records returns no ids. -/
def envC4 : Env := { baseEnv with startTaggedIds := [], count := 2 }

/-- Chunk-only output request against the untagged index. -/
def cfgC4 : Config := { baseCfg with includes := [QueryInclude.chunk] }

/-- World for the line-range expansion scenario: `/repo/f8.py` has
thirteen lines, of which the lines at indices 10 through 12 are `a`, `b`
and `c`; the indexed chunk text is the stale string `stale`. -/
def envC8 : Env :=
  { baseEnv with
    isFile := fun str => str == "/repo/f8.py"
    fileLines := fun str =>
      if str == "/repo/f8.py" then
        ["x\n", "x\n", "x\n", "x\n", "x\n", "x\n", "x\n", "x\n", "x\n", "x\n",
         "a", "b", "c"]
      else []
    chunkMeta := fun str =>
      if str == "cid8" then some [⟨some 10, some 12, some "/repo/f8.py"⟩] else none
    chunkDocs := fun str => if str == "cid8" then some ["stale"] else none
    rerankedIds := ["cid8"] }

/-- Chunk-only output request. -/
def cfgC8 : Config := { baseCfg with includes := [QueryInclude.chunk] }

/-- World for the path-cleanup scenario: the reranker returns the existing
file `/repo/x.py` and `cleanup_path` prepends a marker to its argument, so that its
application is observable. -/
def envC9 : Env :=
  { baseEnv with
    isFile := fun str => str == "/repo/x.py"
    fileLines := fun str => if str == "/repo/x.py" then ["hi"] else []
    cleanup_path := fun str => "C:" ++ str
    rerankedIds := ["/repo/x.py"] }

/-- Path-and-document output with relative paths. -/
def cfgC9 : Config := { baseCfg with use_absolute_path := false }

/-- A value that is the image of the path-cleanup routine. -/
def cleanedBy (env : Env) (v : Val) : Prop :=
  ∃ s0, v = Val.str (env.cleanup_path s0)

/-! Dictionary lemmas used to read fields off the records the reconciler
builds by successive assignments. -/

theorem dictGet_map_set (d : PyDict) (k : String) (v : Val)
    (h : (dictGet d k).isSome) :
    dictGet (d.map (fun p => if p.1 = k then (k, v) else p)) k = some v := by
  induction d with
  | nil => simp [dictGet] at h
  | cons p t ih =>
    by_cases hak : p.1 = k
    · simp only [List.map_cons, if_pos hak]
      simp [dictGet]
    · simp only [List.map_cons, if_neg hak]
      rw [dictGet, if_neg hak]
      apply ih
      rw [dictGet, if_neg hak] at h
      exact h

theorem dictGet_append_set (d : PyDict) (k : String) (v : Val)
    (h : dictGet d k = none) :
    dictGet (d ++ [(k, v)]) k = some v := by
  induction d with
  | nil => simp [dictGet]
  | cons p t ih =>
    by_cases hak : p.1 = k
    · rw [dictGet, if_pos hak] at h
      exact absurd h (by simp)
    · rw [dictGet, if_neg hak] at h
      rw [List.cons_append, dictGet, if_neg hak]
      exact ih h

theorem dictGet_map_set_ne (d : PyDict) (k k2 : String) (v : Val)
    (h : k2 ≠ k) :
    dictGet (d.map (fun p => if p.1 = k then (k, v) else p)) k2 = dictGet d k2 := by
  induction d with
  | nil => rfl
  | cons p t ih =>
    by_cases hak : p.1 = k
    · simp only [List.map_cons, if_pos hak]
      rw [dictGet, dictGet]
      rw [if_neg (show ¬ ((k, v).1 = k2) from fun hh => h (hh.symm))]
      rw [if_neg (show ¬ (p.1 = k2) from fun hh => h ((hak ▸ hh).symm))]
      exact ih
    · simp only [List.map_cons, if_neg hak]
      rw [dictGet, dictGet]
      by_cases hab : p.1 = k2
      · simp [hab]
      · rw [if_neg hab, if_neg hab]
        exact ih

theorem dictGet_append_ne (d : PyDict) (k k2 : String) (v : Val)
    (h : k2 ≠ k) :
    dictGet (d ++ [(k, v)]) k2 = dictGet d k2 := by
  induction d with
  | nil =>
    simp only [List.nil_append]
    simp [dictGet, Ne.symm h]
  | cons p t ih =>
    rw [List.cons_append, dictGet, dictGet]
    by_cases hab : p.1 = k2
    · simp [hab]
    · rw [if_neg hab, if_neg hab]
      exact ih

/-- Reading back the key just assigned. -/
theorem dictGet_dictSet_self (d : PyDict) (k : String) (v : Val) :
    dictGet (dictSet d k v) k = some v := by
  unfold dictSet
  split
  · exact dictGet_map_set d k v (by assumption)
  · rename_i h
    exact dictGet_append_set d k v (Option.not_isSome_iff_eq_none.mp h)

/-- Assigning one key leaves the other keys unread. -/
theorem dictGet_dictSet_ne (d : PyDict) (k k2 : String) (v : Val)
    (h : k2 ≠ k) :
    dictGet (dictSet d k v) k2 = dictGet d k2 := by
  unfold dictSet
  split
  · exact dictGet_map_set_ne d k k2 v h
  · exact dictGet_append_ne d k k2 v h

/-- Every key of `dictSet d k v` is `k` or a key of `d`. -/
theorem mem_recKeys_dictSet (d : PyDict) (k : String) (v : Val) (a : String)
    (ha : a ∈ recKeys (dictSet d k v)) : a = k ∨ a ∈ recKeys d := by
  unfold dictSet at ha
  split at ha
  · simp only [recKeys, List.map_map, List.mem_map] at ha
    obtain ⟨p, hp, hpa⟩ := ha
    by_cases h1 : p.1 = k
    · left
      simp only [Function.comp_apply, if_pos h1] at hpa
      exact hpa.symm
    · right
      simp only [Function.comp_apply, if_neg h1] at hpa
      exact hpa ▸ List.mem_map_of_mem Prod.fst hp
  · simp only [recKeys, List.map_append, List.mem_append, List.map_cons,
      List.map_nil, List.mem_singleton] at ha
    rcases ha with ha | ha
    · right
      exact ha
    · left
      exact ha

/-- Assigning an already-present key preserves the key list. -/
theorem recKeys_dictSet_of_isSome (d : PyDict) (k : String) (v : Val)
    (h : (dictGet d k).isSome) : recKeys (dictSet d k v) = recKeys d := by
  unfold dictSet
  rw [if_pos h]
  unfold recKeys
  rw [List.map_map]
  apply List.map_congr_left
  intro p _
  by_cases h1 : p.1 = k
  · simp [h1]
  · simp [h1]

/-- Python slicing at non-negative bounds inside the list is the
drop-then-take of the designated segment. -/
theorem pySlice_eq_drop_take {α : Type _} (l : List α) (s e : Nat)
    (hs : s ≤ e) (he : e < l.length) :
    pySlice l (s : Int) ((e : Int) + 1) = (l.drop s).take (e + 1 - s) := by
  unfold pySlice pySliceIdx
  have h1 : ¬ ((s : Int) < 0) := by omega
  have h2 : ¬ ((e : Int) + 1 < 0) := by omega
  rw [if_neg h2, if_neg h1]
  have h3 : ((e : Int) + 1).toNat = e + 1 := by omega
  have h4 : ((s : Int)).toNat = s := by omega
  rw [h3, h4]
  have h5 : min (e + 1) l.length = e + 1 := by omega
  have h6 : min s l.length = s := by omega
  rw [h5, h6]
  exact List.drop_take (e + 1) s l

/-- Claim C1: in chunk mode with a non-empty exclusion set, the `where`
clause passed to the index should be the AND of the exclusion clause and a
clause on the `start` field. The code instead emits the bare operator
dictionary containing only the `$gte` key as the second conjunct (line 59
omits the `start` field name), while the empty-exclusion branch does emit
the direct field filter on `start`. This theorem evaluates both branches on
explicit inputs, exhibiting the divergence. -/
theorem c1_and_conjunct_lacks_start_field :
    (get_query_result_files envC1 cfgC1).outcome =
      QueryOutcome.request 3
        (some (Val.dict [("$and", Val.list
          [Val.dict [("path", Val.dict [("$nin", Val.list [Val.str "/repo/a.py"])])],
           Val.dict [("$gte", Val.int 0)]])]))
        false ∧
    (get_query_result_files envC1 cfgC1b).outcome =
      QueryOutcome.request 3
        (some (Val.dict [("start", Val.dict [("$gte", Val.int 0)])]))
        false := by
  constructor <;> rfl

/-- Claim C2: the spec says a chunk identifier with non-empty metadata
contributes an output record, and that only identifiers with missing or
empty metadata are logged and skipped. Evaluated on `cid2`, whose metadata
is non-empty but lacks the offsets, the code emits no record and no log
line: the append on line 139 is nested inside the offsets-present branch,
so the identifier is dropped silently. -/
theorem c2_nonempty_meta_without_offsets_dropped :
    (build_query_results envC2 cfgC2).result = .ok [] ∧
    (build_query_results envC2 cfgC2).logs = [] := by
  constructor <;> rfl

/-- Claim C3, counterexample: the claim states that every returned record
has its key set inside the requested include list. On this explicit input
the single returned record carries the key `start_line` (and also
`chunk_id` and `end_line`), none of which belong to the requested include
list `[path, chunk]`. -/
theorem c3_counterexample :
    (build_query_results envC3 cfgC3).result =
      .ok [[("chunk", Val.str "hello\n"), ("chunk_id", Val.str "cid3"),
            ("start_line", Val.int 0), ("end_line", Val.int 0),
            ("path", Val.str "/repo/f3.py")]] ∧
    "start_line" ∉ cfgC3.includes.map QueryInclude.toKey := by
  refine ⟨rfl, ?_⟩
  decide

/-- Claim C5: the candidate count requested from the index, whenever a
request is issued (non-empty collection): exactly `n_result` in chunk mode,
otherwise `min(n_result * query_multiplier, count)` for a positive
multiplier and the full count for a non-positive one. -/
theorem c5_candidate_count (env : Env) (configs : Config) (h : env.count ≠ 0) :
    (get_query_result_files env configs).outcome.numRequested =
      some (if QueryInclude.chunk ∈ configs.includes then configs.n_result
            else if configs.query_multiplier > 0 then
              min (configs.n_result * configs.query_multiplier) (env.count : Int)
            else (env.count : Int)) := by
  by_cases hc : QueryInclude.chunk ∈ configs.includes <;>
    by_cases hm : configs.query_multiplier > 0 <;>
      simp only [get_query_result_files, h, hc, hm, if_true, if_false, ite_true,
        ite_false, reduceIte] <;>
      (split
       · rfl
       · split <;> rfl)

/-- Witness for C5 on an explicit input: six candidates are requested. -/
theorem c5_candidate_count_witness :
    (get_query_result_files envC5 cfgC5).outcome.numRequested = some 6 := by
  have h := c5_candidate_count envC5 cfgC5 (by decide)
  simpa using h

/-- Claim C6: on an empty collection the pipeline returns the empty result
set, and the request to the index (hence the embedding call on line 71) is
never made: the count check on line 47 precedes it. -/
theorem c6_empty_collection_skips_embedding (env : Env) (configs : Config)
    (h : env.count = 0) :
    (build_query_results env configs).result = .ok [] ∧
    (build_query_results env configs).outcome = QueryOutcome.emptyCollection ∧
    QueryOutcome.embeddingInvoked (build_query_results env configs).outcome = false := by
  have hg : get_query_result_files env configs =
      ⟨{ configs with query_exclude := expandedExclude env configs.query_exclude },
        QueryOutcome.emptyCollection, .ok []⟩ := by
    unfold get_query_result_files
    rw [if_pos h]
  refine ⟨?_, ?_, ?_⟩ <;>
    simp [build_query_results, hg, buildLoop, cleanupResults, QueryOutcome.embeddingInvoked]

/-- Witness for C6 on an explicit input. -/
theorem c6_empty_collection_witness :
    (build_query_results envC6 baseCfg).result = .ok [] ∧
    (build_query_results envC6 baseCfg).outcome = QueryOutcome.emptyCollection ∧
    QueryOutcome.embeddingInvoked (build_query_results envC6 baseCfg).outcome = false :=
  c6_empty_collection_skips_embedding envC6 baseCfg rfl

/-- Claim C7: when both chunk and document are requested, `query` returns
exit code 1 immediately: no client is acquired, no probe is issued, no
retrieval happens, no results are produced and the configs are untouched. -/
theorem c7_mode_conflict_fails_before_io (env : Env) (configs : Config)
    (hc : QueryInclude.chunk ∈ configs.includes)
    (hd : QueryInclude.document ∈ configs.includes) :
    query env configs = ⟨.ok 1, false, 0, false, none, configs, []⟩ := by
  unfold query
  rw [if_pos ⟨hc, hd⟩]

/-- Witness for C7 on an explicit input. -/
theorem c7_mode_conflict_witness :
    query baseEnv cfgC7 = ⟨.ok 1, false, 0, false, none, cfgC7, []⟩ :=
  c7_mode_conflict_fails_before_io baseEnv cfgC7 (by decide) (by decide)

/-- Claim C8: whenever the reconciler emits a record for a chunk identifier
whose stored metadata carries offsets `start = s` and `end = e` into an
existing backing file, the `chunk` field of that record is the
concatenation of the lines of the file as read from disk, from index `s`
through index `e` inclusive, and not the indexed chunk text. -/
theorem c8_chunk_line_range (env : Env) (configs : Config)
    (identifier p d0 : String) (ds : List String)
    (rest : List ChunkMeta)
    (s e : Nat) (r : PyDict) (logs : List LogMsg)
    (hnf : env.isFile identifier = false)
    (hchunk : QueryInclude.chunk ∈ configs.includes)
    (hmeta : env.chunkMeta identifier =
      some (⟨some (s : Int), some (e : Int), some p⟩ :: rest))
    (hdocs : env.chunkDocs identifier = some (d0 :: ds))
    (hfile : env.isFile p = true)
    (hse : s ≤ e) (hlen : e < (env.fileLines p).length)
    (hout : processIdentifier env configs identifier = .ok (some r, logs)) :
    dictGet r "chunk" =
      some (Val.str (String.join (((env.fileLines p).drop s).take (e + 1 - s)))) := by
  unfold processIdentifier at hout
  rw [hnf, if_pos hchunk, hmeta, hdocs] at hout
  replace hout :
      (if env.isFile p = true then
        (if QueryInclude.path ∈ configs.includes then
          Except.ok (ε := PyErr)
            ((some (dictSet
              (dictSet
                (dictSet
                  (dictSet [("chunk", Val.str d0), ("chunk_id", Val.str identifier)]
                    "chunk"
                    (Val.str (String.join (pySlice (env.fileLines p) (s : Int) ((e : Int) + 1)))))
                  "start_line" (Val.int (s : Int)))
                "end_line" (Val.int (e : Int)))
              "path"
              (Val.str (if configs.use_absolute_path = true then p
                        else env.relpath p configs.project_root))) : Option PyDict),
             ([] : List LogMsg))
        else
          Except.ok
            (some (dictSet
              (dictSet
                (dictSet [("chunk", Val.str d0), ("chunk_id", Val.str identifier)]
                  "chunk"
                  (Val.str (String.join (pySlice (env.fileLines p) (s : Int) ((e : Int) + 1)))))
                "start_line" (Val.int (s : Int)))
              "end_line" (Val.int (e : Int))),
             ([] : List LogMsg)))
      else Except.error PyErr.fileNotFound) = Except.ok (some r, logs) := hout
  rw [if_pos hfile] at hout
  by_cases hpath : QueryInclude.path ∈ configs.includes
  · rw [if_pos hpath] at hout
    simp only [Except.ok.injEq, Prod.mk.injEq, Option.some.injEq] at hout
    obtain ⟨hr, -⟩ := hout
    subst hr
    rw [dictGet_dictSet_ne _ "path" "chunk" _ (by decide),
        dictGet_dictSet_ne _ "end_line" "chunk" _ (by decide),
        dictGet_dictSet_ne _ "start_line" "chunk" _ (by decide),
        dictGet_dictSet_self]
    rw [pySlice_eq_drop_take (env.fileLines p) s e hse hlen]
  · rw [if_neg hpath] at hout
    simp only [Except.ok.injEq, Prod.mk.injEq, Option.some.injEq] at hout
    obtain ⟨hr, -⟩ := hout
    subst hr
    rw [dictGet_dictSet_ne _ "end_line" "chunk" _ (by decide),
        dictGet_dictSet_ne _ "start_line" "chunk" _ (by decide),
        dictGet_dictSet_self]
    rw [pySlice_eq_drop_take (env.fileLines p) s e hse hlen]

/-- `get_query_result_files` rewrites `query_exclude` (lines 42-46) and
touches no other config field, on every control path. -/
theorem gqrf_configs (env : Env) (c : Config) :
    (get_query_result_files env c).configs =
      { c with query_exclude := expandedExclude env c.query_exclude } := by
  simp only [get_query_result_files]
  split
  · rfl
  split
  · rfl
  split <;> rfl

/-- `build_query_results` returns the configs produced by
`get_query_result_files` on every control path. -/
theorem build_query_results_configs (env : Env) (c : Config) :
    (build_query_results env c).configs = (get_query_result_files env c).configs := by
  simp only [build_query_results]
  split
  · rfl
  split <;> rfl

/-- `build_query_results` preserves the retrieval trace of
`get_query_result_files` on every control path. -/
theorem build_query_results_outcome (env : Env) (c : Config) :
    (build_query_results env c).outcome = (get_query_result_files env c).outcome := by
  simp only [build_query_results]
  split
  · rfl
  split <;> rfl

/-- The capability fallback only ever touches the include list, and it
rewrites it to `[path, document]` exactly when chunk mode was requested and
the probe found no line-range-tagged record. -/
theorem capabilityFallback_fields (env : Env) (c : Config) :
    (capabilityFallback env c).configs.query_exclude = c.query_exclude ∧
    (capabilityFallback env c).configs.query = c.query ∧
    (capabilityFallback env c).configs.n_result = c.n_result ∧
    (capabilityFallback env c).configs.query_multiplier = c.query_multiplier ∧
    (capabilityFallback env c).configs.use_absolute_path = c.use_absolute_path ∧
    (capabilityFallback env c).configs.project_root = c.project_root ∧
    (capabilityFallback env c).configs.pipe = c.pipe ∧
    (capabilityFallback env c).configs.includes =
      (if QueryInclude.chunk ∈ c.includes ∧ env.startTaggedIds.length = 0
       then [QueryInclude.path, QueryInclude.document] else c.includes) := by
  unfold capabilityFallback
  by_cases h1 : QueryInclude.chunk ∈ c.includes <;>
    by_cases h2 : env.startTaggedIds.length = 0 <;>
      simp [h1, h2]

/-- A successful `build_query_results` decomposes into a successful
identifier retrieval, a successful reconciliation loop, and the final
path-cleanup pass. -/
theorem build_query_results_ok (env : Env) (configs : Config) (rs : List PyDict)
    (h : (build_query_results env configs).result = .ok rs) :
    ∃ ids rs0 ls, (get_query_result_files env configs).ids = .ok ids ∧
      buildLoop env (get_query_result_files env configs).configs ids = .ok (rs0, ls) ∧
      rs = cleanupResults env rs0 := by
  simp only [build_query_results] at h
  split at h
  · simp at h
  · rename_i ids hids
    split at h
    · simp at h
    · rename_i rs0 ls0 hloop
      simp only [Except.ok.injEq] at h
      exact ⟨ids, rs0, ls0, hids, hloop, h.symm⟩

/-- Every record collected by the reconciliation loop was emitted by
`processIdentifier` for one of the identifiers. -/
theorem buildLoop_mem (env : Env) (configs : Config) (ids : List String)
    (rs : List PyDict) (ls : List LogMsg) (r : PyDict)
    (h : buildLoop env configs ids = .ok (rs, ls)) (hr : r ∈ rs) :
    ∃ identifier ls2, processIdentifier env configs identifier = .ok (some r, ls2) := by
  induction ids generalizing rs ls with
  | nil =>
    unfold buildLoop at h
    simp only [Except.ok.injEq, Prod.mk.injEq] at h
    obtain ⟨h1, -⟩ := h
    subst h1
    cases hr
  | cons identifier tail ih =>
    unfold buildLoop at h
    split at h
    · simp at h
    · rename_i ropt ls1 hpr
      split at h
      · simp at h
      · rename_i rs2 ls2 hrls
        simp only [Except.ok.injEq, Prod.mk.injEq] at h
        obtain ⟨h1, -⟩ := h
        subst h1
        cases ropt with
        | some r2 =>
          replace hr : r ∈ r2 :: rs2 := hr
          rcases List.mem_cons.mp hr with h2 | h2
          · subst h2
            exact ⟨identifier, ls1, hpr⟩
          · exact ih rs2 ls2 hrls h2
        | none =>
          replace hr : r ∈ rs2 := hr
          exact ih rs2 ls2 hrls hr

/-- Keys of a projection built by the include-list dict comprehension come
from the accumulator or from the include list. -/
theorem projectIncludes_keys (full : PyDict) (ks : List QueryInclude)
    (acc r : PyDict) (h : projectIncludes full acc ks = some r) :
    ∀ a ∈ recKeys r, a ∈ recKeys acc ∨ a ∈ ks.map QueryInclude.toKey := by
  induction ks generalizing acc with
  | nil =>
    unfold projectIncludes at h
    injection h with h1
    subst h1
    intro a ha
    exact Or.inl ha
  | cons k ks ih =>
    unfold projectIncludes at h
    split at h
    · rename_i v hv
      intro a ha
      rcases ih (dictSet acc k.toKey v) h a ha with h2 | h2
      · rcases mem_recKeys_dictSet acc k.toKey v a h2 with h3 | h3
        · right
          rw [h3, List.map_cons]
          exact List.mem_cons_self _ _
        · left
          exact h3
      · right
        rw [List.map_cons]
        exact List.mem_cons_of_mem _ h2
    · cases h

/-- The path-cleanup pass preserves the key list of every record. -/
theorem recKeys_cleanupOne (env : Env) (r0 : PyDict) :
    recKeys (match dictGet r0 "path" with
      | some v => dictSet r0 "path" (Val.str (env.cleanup_path (Val.asStr v)))
      | none => r0) = recKeys r0 := by
  cases hw : dictGet r0 "path" with
  | some w =>
    exact recKeys_dictSet_of_isSome r0 "path" _ (by rw [hw]; rfl)
  | none => rfl

/-- Every key of a record emitted by `processIdentifier` is either the
string of a requested include member or one of the three extra keys the
chunk branch writes unconditionally. -/
theorem processIdentifier_keys (env : Env) (configs : Config) (identifier : String)
    (r : PyDict) (ls : List LogMsg)
    (h : processIdentifier env configs identifier = .ok (some r, ls)) :
    ∀ a ∈ recKeys r, a ∈ configs.includes.map QueryInclude.toKey ∨
      a = "chunk_id" ∨ a = "start_line" ∨ a = "end_line" := by
  unfold processIdentifier at h
  by_cases hf : env.isFile identifier = true
  · rw [if_pos hf] at h
    simp only [] at h
    split at h
    · rename_i r2 hproj
      simp only [Except.ok.injEq, Prod.mk.injEq, Option.some.injEq] at h
      obtain ⟨h1, -⟩ := h
      subst h1
      intro a ha
      left
      rcases projectIncludes_keys _ _ _ _ hproj a ha with h2 | h2
      · cases h2
      · exact h2
    · simp at h
  · rw [if_neg hf] at h
    by_cases hchunk : QueryInclude.chunk ∈ configs.includes
    · rw [if_pos hchunk] at h
      cases hmeta : env.chunkMeta identifier with
      | none =>
        rw [hmeta] at h
        simp only [] at h
        simp at h
      | some lm =>
        rw [hmeta] at h
        cases lm with
        | nil =>
          simp only [] at h
          simp at h
        | cons m tail =>
          simp only [] at h
          cases hdocs : env.chunkDocs identifier with
          | none =>
            rw [hdocs] at h
            simp only [] at h
            simp at h
          | some ld =>
            rw [hdocs] at h
            cases ld with
            | nil =>
              simp only [] at h
              simp at h
            | cons d0 dtail =>
              simp only [] at h
              cases hms : m.mstart with
              | none =>
                rw [hms] at h
                simp only [] at h
                simp at h
              | some s =>
                rw [hms] at h
                cases hme : m.mend with
                | none =>
                  rw [hme] at h
                  simp only [] at h
                  simp at h
                | some e =>
                  rw [hme] at h
                  simp only [] at h
                  by_cases hfp : env.isFile (m.mpath.getD "None") = true
                  · rw [if_pos hfp] at h
                    by_cases hpath : QueryInclude.path ∈ configs.includes
                    · rw [if_pos hpath] at h
                      cases hmp : m.mpath with
                      | none =>
                        rw [hmp] at h
                        simp only [] at h
                        simp at h
                      | some p =>
                        rw [hmp] at h
                        simp only [] at h
                        simp only [Except.ok.injEq, Prod.mk.injEq, Option.some.injEq] at h
                        obtain ⟨h1, -⟩ := h
                        subst h1
                        intro a ha
                        rcases mem_recKeys_dictSet _ _ _ _ ha with h2 | h2
                        · left
                          rw [h2]
                          exact List.mem_map_of_mem QueryInclude.toKey hpath
                        rcases mem_recKeys_dictSet _ _ _ _ h2 with h3 | h3
                        · right; right; right; exact h3
                        rcases mem_recKeys_dictSet _ _ _ _ h3 with h4 | h4
                        · right; right; left; exact h4
                        rcases mem_recKeys_dictSet _ _ _ _ h4 with h5 | h5
                        · left
                          rw [h5]
                          exact List.mem_map_of_mem QueryInclude.toKey hchunk
                        · simp only [recKeys, List.map_cons, List.map_nil,
                            List.mem_cons, List.not_mem_nil, or_false] at h5
                          rcases h5 with h6 | h6
                          · left
                            rw [h6]
                            exact List.mem_map_of_mem QueryInclude.toKey hchunk
                          · right; left; exact h6
                    · rw [if_neg hpath] at h
                      simp only [Except.ok.injEq, Prod.mk.injEq, Option.some.injEq] at h
                      obtain ⟨h1, -⟩ := h
                      subst h1
                      intro a ha
                      rcases mem_recKeys_dictSet _ _ _ _ ha with h3 | h3
                      · right; right; right; exact h3
                      rcases mem_recKeys_dictSet _ _ _ _ h3 with h4 | h4
                      · right; right; left; exact h4
                      rcases mem_recKeys_dictSet _ _ _ _ h4 with h5 | h5
                      · left
                        rw [h5]
                        exact List.mem_map_of_mem QueryInclude.toKey hchunk
                      · simp only [recKeys, List.map_cons, List.map_nil,
                          List.mem_cons, List.not_mem_nil, or_false] at h5
                        rcases h5 with h6 | h6
                        · left
                          rw [h6]
                          exact List.mem_map_of_mem QueryInclude.toKey hchunk
                        · right; left; exact h6
                  · rw [if_neg hfp] at h
                    simp at h
    · rw [if_neg hchunk] at h
      simp at h

/-- Claim C3, amended: every key of a returned record belongs to the
requested include list extended with `chunk_id`, `start_line` and
`end_line` — the chunk branch writes these three keys even though they are
not part of the requested OutputMode, while the existing-file branch stays
inside the requested list. -/
theorem c3_keys_subset_of_requested_extended (env : Env) (configs : Config)
    (rs : List PyDict) (r : PyDict) (a : String)
    (h : (build_query_results env configs).result = .ok rs)
    (hr : r ∈ rs) (ha : a ∈ recKeys r) :
    a ∈ configs.includes.map QueryInclude.toKey ∨
      a = "chunk_id" ∨ a = "start_line" ∨ a = "end_line" := by
  obtain ⟨ids, rs0, ls, hids, hloop, hrs⟩ := build_query_results_ok env configs rs h
  subst hrs
  unfold cleanupResults at hr
  rw [List.mem_map] at hr
  obtain ⟨r0, hr0, hmap⟩ := hr
  have hk : recKeys r = recKeys r0 := by
    rw [← hmap]
    exact recKeys_cleanupOne env r0
  obtain ⟨identifier, ls2, hp⟩ := buildLoop_mem env _ ids rs0 ls r0 hloop hr0
  have hkeys := processIdentifier_keys env _ identifier r0 ls2 hp
  have h2 := hkeys a (hk ▸ ha)
  rw [gqrf_configs] at h2
  exact h2

/-- Witness for the amended C3 on an explicit input: the key `start_line`
of the returned record falls in the extended set. -/
theorem c3_keys_subset_witness :
    "start_line" ∈ cfgC3.includes.map QueryInclude.toKey ∨
      "start_line" = "chunk_id" ∨ "start_line" = "start_line" ∨
      "start_line" = "end_line" :=
  c3_keys_subset_of_requested_extended envC3 cfgC3
    [[("chunk", Val.str "hello\n"), ("chunk_id", Val.str "cid3"),
      ("start_line", Val.int 0), ("end_line", Val.int 0),
      ("path", Val.str "/repo/f3.py")]]
    [("chunk", Val.str "hello\n"), ("chunk_id", Val.str "cid3"),
      ("start_line", Val.int 0), ("end_line", Val.int 0),
      ("path", Val.str "/repo/f3.py")]
    "start_line" rfl (List.mem_singleton_self _) (by decide)

/-- Claim C9: every returned record carrying a `path` key went through the
final cleanup loop, so its path value is the image of `cleanup_path`,
whichever branch produced the record. -/
theorem c9_paths_cleaned (env : Env) (configs : Config)
    (rs : List PyDict) (r : PyDict) (v : Val)
    (h : (build_query_results env configs).result = .ok rs)
    (hr : r ∈ rs) (hv : dictGet r "path" = some v) :
    cleanedBy env v := by
  obtain ⟨ids, rs0, ls, hids, hloop, hrs⟩ := build_query_results_ok env configs rs h
  subst hrs
  unfold cleanupResults at hr
  rw [List.mem_map] at hr
  obtain ⟨r0, hr0, hmap⟩ := hr
  cases hw : dictGet r0 "path" with
  | some w =>
    have hr2 : r = dictSet r0 "path" (Val.str (env.cleanup_path (Val.asStr w))) := by
      rw [← hmap, hw]
    rw [hr2, dictGet_dictSet_self] at hv
    injection hv with hv1
    exact ⟨Val.asStr w, hv1.symm⟩
  | none =>
    have hr2 : r = r0 := by
      rw [← hmap, hw]
    rw [hr2, hw] at hv
    cases hv

/-- Witness for C9 on an explicit input. -/
theorem c9_paths_cleaned_witness : cleanedBy envC9 (Val.str "C:/repo/x.py") :=
  c9_paths_cleaned envC9 cfgC9
    [[("path", Val.str "C:/repo/x.py"), ("document", Val.str "hi")]]
    [("path", Val.str "C:/repo/x.py"), ("document", Val.str "hi")]
    (Val.str "C:/repo/x.py") rfl (List.mem_singleton_self _) rfl

/-- Claim C4: in chunk mode against an index with no record tagged
`start >= 0`, `query` runs the probe exactly once, logs the warning,
rewrites the requested include list to `[path, document]`, and the
retrieval request is the one built from the downgraded configuration. -/
theorem c4_capability_fallback_downgrades (env : Env) (configs : Config)
    (hchunk : QueryInclude.chunk ∈ configs.includes)
    (hdoc : QueryInclude.document ∉ configs.includes)
    (hok : env.collectionOk = true)
    (hempty : env.startTaggedIds = []) :
    (query env configs).fallbackWarned = true ∧
    (query env configs).probes = 1 ∧
    (query env configs).configsFinal.includes =
      [QueryInclude.path, QueryInclude.document] ∧
    (query env configs).outcome =
      some (get_query_result_files env
        { configs with includes := [QueryInclude.path, QueryInclude.document] }).outcome := by
  have hval : ¬ (QueryInclude.chunk ∈ configs.includes ∧
      QueryInclude.document ∈ configs.includes) := fun hh => hdoc hh.2
  have hfb : capabilityFallback env configs =
      ⟨{ configs with includes := [QueryInclude.path, QueryInclude.document] },
        true, 1⟩ := by
    unfold capabilityFallback
    rw [if_pos hchunk, if_pos (by rw [hempty]; rfl)]
  unfold query
  rw [if_neg hval, hok]
  simp only [Bool.not_true, Bool.false_eq_true, if_false]
  rw [hfb]
  simp only []
  refine ⟨?_, ?_, ?_, ?_⟩ <;>
    (split <;>
      simp only [build_query_results_configs, build_query_results_outcome,
        gqrf_configs])

/-- Witness for C4 on an explicit input. -/
theorem c4_capability_fallback_witness :
    (query envC4 cfgC4).fallbackWarned = true ∧
    (query envC4 cfgC4).probes = 1 ∧
    (query envC4 cfgC4).configsFinal.includes =
      [QueryInclude.path, QueryInclude.document] ∧
    (query envC4 cfgC4).outcome =
      some (get_query_result_files envC4
        { cfgC4 with includes := [QueryInclude.path, QueryInclude.document] }).outcome :=
  c4_capability_fallback_downgrades envC4 cfgC4 (by decide) (by decide) rfl rfl

/-- Claim C10: on the main path, the invocation rewrites exactly two config
fields: `query_exclude` becomes the expanded list of existing excluded
files, `includes` is downgraded exactly when the fallback fires, and every
other field is returned unchanged. -/
theorem c10_config_mutation_frame (env : Env) (configs : Config)
    (hvalid : ¬ (QueryInclude.chunk ∈ configs.includes ∧
      QueryInclude.document ∈ configs.includes))
    (hok : env.collectionOk = true) :
    (query env configs).configsFinal.query_exclude =
      expandedExclude env configs.query_exclude ∧
    (query env configs).configsFinal.includes =
      (if QueryInclude.chunk ∈ configs.includes ∧ env.startTaggedIds.length = 0
       then [QueryInclude.path, QueryInclude.document] else configs.includes) ∧
    (query env configs).configsFinal.query = configs.query ∧
    (query env configs).configsFinal.n_result = configs.n_result ∧
    (query env configs).configsFinal.query_multiplier = configs.query_multiplier ∧
    (query env configs).configsFinal.use_absolute_path = configs.use_absolute_path ∧
    (query env configs).configsFinal.project_root = configs.project_root ∧
    (query env configs).configsFinal.pipe = configs.pipe := by
  have hcf : (query env configs).configsFinal =
      { (capabilityFallback env configs).configs with
        query_exclude :=
          expandedExclude env (capabilityFallback env configs).configs.query_exclude } := by
    unfold query
    rw [if_neg hvalid, hok]
    simp only [Bool.not_true, Bool.false_eq_true, if_false]
    split <;> rw [build_query_results_configs, gqrf_configs]
  obtain ⟨f1, f2, f3, f4, f5, f6, f7, f8⟩ := capabilityFallback_fields env configs
  rw [hcf]
  refine ⟨?_, f8, f2, f3, f4, f5, f6, f7⟩
  show expandedExclude env (capabilityFallback env configs).configs.query_exclude = _
  rw [f1]

/-- Witness for C10 on an explicit input. -/
theorem c10_config_mutation_witness :
    (query baseEnv baseCfg).configsFinal.query_exclude =
      expandedExclude baseEnv baseCfg.query_exclude ∧
    (query baseEnv baseCfg).configsFinal.includes =
      (if QueryInclude.chunk ∈ baseCfg.includes ∧ baseEnv.startTaggedIds.length = 0
       then [QueryInclude.path, QueryInclude.document] else baseCfg.includes) ∧
    (query baseEnv baseCfg).configsFinal.query = baseCfg.query ∧
    (query baseEnv baseCfg).configsFinal.n_result = baseCfg.n_result ∧
    (query baseEnv baseCfg).configsFinal.query_multiplier = baseCfg.query_multiplier ∧
    (query baseEnv baseCfg).configsFinal.use_absolute_path = baseCfg.use_absolute_path ∧
    (query baseEnv baseCfg).configsFinal.project_root = baseCfg.project_root ∧
    (query baseEnv baseCfg).configsFinal.pipe = baseCfg.pipe :=
  c10_config_mutation_frame baseEnv baseCfg (by decide) rfl

/-- Witness for C8 on the explicit thirteen-line file: the emitted record
carries the concatenation `abc` of lines 10 through 12 inclusive, not the
stale indexed chunk text. -/
theorem c8_chunk_line_range_witness :
    dictGet [("chunk", Val.str "abc"), ("chunk_id", Val.str "cid8"),
             ("start_line", Val.int 10), ("end_line", Val.int 12)] "chunk" =
      some (Val.str (String.join
        (((envC8.fileLines "/repo/f8.py").drop 10).take (12 + 1 - 10)))) :=
  c8_chunk_line_range envC8 cfgC8 "cid8" "/repo/f8.py" "stale" [] [] 10 12
    [("chunk", Val.str "abc"), ("chunk_id", Val.str "cid8"),
     ("start_line", Val.int 10), ("end_line", Val.int 12)] []
    rfl (by decide) rfl rfl rfl (by decide) (by decide) rfl

end VectorCode
